import Mathlib

/-!
Shallow embedding of the property-manager web application
(`src/property_manager_improved_app.py`): the SQLite-backed data layer
(schema initialization, the properties CRUD routes with their dynamic
WHERE-clause construction) and the session/auth helpers, together with
theorems settling the specification's claims about them.

The SQLite database is modelled as explicit row lists with per-table
AUTOINCREMENT sequence counters.  SQLite `LIKE` is modelled faithfully:
ASCII-case-insensitive, with `%` and `_` wildcards.  Nondeterministic
ambient inputs of the Python code (the current timestamp, the salted
password hash produced by `generate_password_hash`, the hash check
`check_password_hash`) are passed as explicit parameters.
-/

/-- A row of the `users` table. -/
structure UserRec where
  id : Nat
  email : String
  password_hash : String
  role : String
  created_at : String
deriving Repr, DecidableEq

/-- A row of the `properties` table; `address` is a nullable column
(`address TEXT`), so it is an `Option`. -/
structure PropertyRec where
  id : Nat
  name : String
  address : Option String
  status : String
  created_at : String
deriving Repr, DecidableEq

/-- In-memory image of the database once both tables exist (the state in
which every route runs, since `init_db()` is executed at import time).
The `Seq` fields mirror the AUTOINCREMENT sequence of each table: the id
handed to the next inserted row is `Seq + 1`, and deletes never lower it. -/
structure Store where
  users : List UserRec
  usersSeq : Nat
  props : List PropertyRec
  propsSeq : Nat
deriving Repr, DecidableEq

/-- The database file as `init_db` sees it: each table either absent
(`none`) or present with its rows. -/
structure DBFile where
  users : Option (List UserRec)
  usersSeq : Nat
  props : Option (List PropertyRec)
  propsSeq : Nat
deriving Repr, DecidableEq

/-- ASCII lower-casing, the folding SQLite's default `LIKE` applies. -/
def asciiLower (c : Char) : Char :=
  if 'A' ≤ c ∧ c ≤ 'Z' then Char.ofNat (c.toNat + 32) else c

/-- The whitespace characters Python's `str.strip()` removes (ASCII part). -/
def isSpaceChar (c : Char) : Bool :=
  c == ' ' || c == '\t' || c == '\n' || c == '\r' || c == '\x0b' || c == '\x0c'

/-- Dropping leading whitespace from a character list. -/
def dropLeadingSpaces : List Char → List Char
  | [] => []
  | c :: cs => if isSpaceChar c then dropLeadingSpaces cs else c :: cs

/-- Python's `str.strip()`: remove leading and trailing whitespace. -/
def pyStrip (s : String) : String :=
  ⟨(dropLeadingSpaces ((dropLeadingSpaces s.data).reverse)).reverse⟩

/-- Python's `str.lower()` (ASCII part, all the seeded data needs). -/
def pyLower (s : String) : String :=
  ⟨s.data.map asciiLower⟩

/-- Matching for a `%` wildcard: try the rest of the pattern (`m`) at
every suffix of the text, the empty suffix included. -/
def likeStar (m : List Char → Bool) : List Char → Bool
  | [] => m []
  | c :: cs => m (c :: cs) || likeStar m cs

/-- SQLite `LIKE` pattern matching: `%` matches any (possibly empty)
character sequence, `_` matches exactly one character, and ordinary
characters compare ASCII-case-insensitively. -/
def likeMatch : List Char → List Char → Bool
  | [], txt => txt.isEmpty
  | '%' :: ps, txt => likeStar (likeMatch ps) txt
  | '_' :: ps, txt =>
      match txt with
      | [] => false
      | _ :: cs => likeMatch ps cs
  | p :: ps, txt =>
      match txt with
      | [] => false
      | c :: cs => (asciiLower p == asciiLower c) && likeMatch ps cs

/-- The bound `LIKE` parameter built by the route: `like = f"%{q}%"`. -/
def likePattern (q : String) : List Char :=
  '%' :: (q.data ++ ['%'])

/-- Evaluation of the SQL condition `(name LIKE ? OR address LIKE ?)` on one
row, with both parameters bound to `%q%`.  A NULL `address` makes its
`LIKE` operand NULL, which is not true in SQL. -/
def nameOrAddressLike (q : String) (r : PropertyRec) : Bool :=
  likeMatch (likePattern q) r.name.data ||
    (match r.address with
     | none => false
     | some a => likeMatch (likePattern q) a.data)

/-- One conjunct of the dynamically built WHERE clause of the
`properties` route. -/
inductive Cond where
  | likeNameOrAddress (q : String)
  | statusEq (v : String)
deriving Repr, DecidableEq

/-- Evaluation of one WHERE-clause conjunct on a row. -/
def evalCond (r : PropertyRec) : Cond → Bool
  | Cond.likeNameOrAddress q => nameOrAddressLike q r
  | Cond.statusEq v => r.status == v

/-- The dynamic WHERE-clause construction of the `properties` route:
starting from `WHERE 1=1`, the text condition is appended when `q` is
non-empty and the status condition when `status` is non-empty. -/
def buildConds (q status : String) : List Cond :=
  (if q ≠ "" then [Cond.likeNameOrAddress q] else []) ++
    (if status ≠ "" then [Cond.statusEq status] else [])

/-- Insertion step for `ORDER BY created_at DESC` (descending by the
timestamp text, the comparison SQLite applies to TEXT). -/
def insertDescByCreated (r : PropertyRec) : List PropertyRec → List PropertyRec
  | [] => [r]
  | x :: xs =>
      if x.created_at ≤ r.created_at then r :: x :: xs
      else x :: insertDescByCreated r xs

/-- Sorting for `ORDER BY created_at DESC`. -/
def orderByCreatedDesc : List PropertyRec → List PropertyRec
  | [] => []
  | x :: xs => insertDescByCreated x (orderByCreatedDesc xs)

/-- The `properties` listing route (its data part): strips both query
parameters, builds the WHERE clause from the non-empty ones, filters the
table and orders by creation timestamp, newest first. -/
def properties (qArg statusArg : String) (s : Store) : List PropertyRec :=
  let q := pyStrip qArg
  let status := pyStrip statusArg
  orderByCreatedDesc
    (s.props.filter (fun r => (buildConds q status).all (evalCond r)))

/-- Row lookup `SELECT * FROM properties WHERE id=?` with `fetchone()`. -/
def getPropertyById (s : Store) (pid : Nat) : Option PropertyRec :=
  s.props.find? (fun r => r.id == pid)

/-- The form fields of the property form as the routes read them:
`request.form["name"]` is required, `request.form.get("address")` may be
absent (then NULL is stored), `request.form.get("status","vacant")`
defaults to `"vacant"` when the field is absent. -/
structure PropertyForm where
  name : String
  address : Option String
  status : Option String
deriving Repr, DecidableEq

/-- The status value the routes bind: `request.form.get("status","vacant")`. -/
def formStatus (f : PropertyForm) : String :=
  f.status.getD "vacant"

/-- The POST branch of the `new_property` route: one parameterized INSERT. -/
def new_property (f : PropertyForm) (now : String) (s : Store) : Store :=
  { s with
    props := s.props ++
      [{ id := s.propsSeq + 1, name := f.name, address := f.address,
         status := formStatus f, created_at := now }],
    propsSeq := s.propsSeq + 1 }

/-- The rowid handed out by the INSERT just performed. -/
def lastInsertId (s : Store) : Nat :=
  s.propsSeq

/-- The POST branch of the `edit_property` route: a SELECT by id first
(redirecting, with no write, when absent), then
`UPDATE properties SET name=?, address=?, status=? WHERE id=?`. -/
def edit_property (pid : Nat) (f : PropertyForm) (s : Store) : Store :=
  match s.props.find? (fun r => r.id == pid) with
  | none => s
  | some _ =>
      { s with
        props := s.props.map (fun r =>
          if r.id == pid then
            { r with name := f.name, address := f.address, status := formStatus f }
          else r) }

/-- The `delete_property` route: `DELETE FROM properties WHERE id=?`. -/
def delete_property (pid : Nat) (s : Store) : Store :=
  { s with props := s.props.filter (fun r => r.id != pid) }

/-- The SQL `CREATE TABLE IF NOT EXISTS` step: an absent table becomes an
empty one, an existing table is left exactly as it is. -/
def createTableIfAbsent {α : Type} (t : Option (List α)) : Option (List α) :=
  some (t.getD [])

/-- The fixed seed email of `init_db`. -/
def adminEmail : String :=
  "admin@example.com"

/-- The seeded administrator row; the salted hash of `"admin123"` produced
by `generate_password_hash` and the timestamp are ambient inputs. -/
def seedAdmin (hash now : String) (uid : Nat) : UserRec :=
  { id := uid, email := adminEmail, password_hash := hash, role := "admin",
    created_at := now }

/-- The `init_db` function: both `CREATE TABLE IF NOT EXISTS` statements,
then `SELECT COUNT(*) FROM users`, and the seed INSERT when the count is
zero. -/
def init_db (hash now : String) (d : DBFile) : DBFile :=
  let usersRows := (createTableIfAbsent d.users).getD []
  let propsRows := (createTableIfAbsent d.props).getD []
  if usersRows.length == 0 then
    { users := some (usersRows ++ [seedAdmin hash now (d.usersSeq + 1)]),
      usersSeq := d.usersSeq + 1,
      props := some propsRows, propsSeq := d.propsSeq }
  else
    { users := some usersRows, usersSeq := d.usersSeq,
      props := some propsRows, propsSeq := d.propsSeq }

/-- Rows of the users table of a database file, empty when the table is
absent (the state `SELECT COUNT(*)` would see right after creation). -/
def usersRowsOf (d : DBFile) : List UserRec :=
  d.users.getD []

/-- The `current_user` helper: `session.get("user_id")` followed by a user
lookup; Python's `if not uid` also rejects the falsy id `0`. -/
def current_user (sess : Option Nat) (users : List UserRec) : Option UserRec :=
  match sess with
  | none => none
  | some uid =>
      if uid == 0 then none
      else users.find? (fun u => u.id == uid)

/-- The observable outcome of a request: a redirect or a rendered page,
each optionally carrying a flashed `(message, category)` notice. -/
inductive Response where
  | redirect (target : String) (flashed : Option (String × String))
  | page (tmpl : String) (flashed : Option (String × String))
deriving Repr, DecidableEq

/-- The `login_required` decorator around a protected body `f`: with no
resolved identity it flashes a warning and redirects to the login page
without invoking `f`; otherwise it runs `f` unchanged. -/
def login_required (f : Store → Store × Response) (sess : Option Nat)
    (s : Store) : Store × Response :=
  if (current_user sess s.users).isNone then
    (s, Response.redirect "/login" (some ("Please log in first.", "warning")))
  else f s

/-- The POST branch of the `login` route: normalizes the email, looks the
user up, and on a passing hash check stores the user id in the session;
on any failure it leaves the session as it was and re-renders the login
page with the generic notice.  The hash check (`check_password_hash`) is
an explicit ambient parameter. -/
def login (checkHash : String → String → Bool) (emailArg password : String)
    (sess : Option Nat) (users : List UserRec) : Option Nat × Response :=
  let email := pyLower (pyStrip emailArg)
  match users.find? (fun u => u.email == email) with
  | some row =>
      if checkHash row.password_hash password then
        (some row.id, Response.redirect "/dashboard" none)
      else
        (sess, Response.page "login" (some ("Invalid credentials", "warning")))
  | none => (sess, Response.page "login" (some ("Invalid credentials", "warning")))

/-- Holds exactly when the login attempt fails: the email is unknown or
the hash check rejects the password. -/
def loginFails (checkHash : String → String → Bool) (emailArg password : String)
    (users : List UserRec) : Bool :=
  match users.find? (fun u => u.email == pyLower (pyStrip emailArg)) with
  | none => true
  | some row => !checkHash row.password_hash password

/-- Modelled from the spec: the `logout` route is absent from `src/` (the
base template links `url_for('logout')`, but no handler is in the file);
per the spec, "logout clears it unconditionally" — the session-to-user
association is dropped regardless of the prior session state. -/
def logout (_sess : Option Nat) : Option Nat :=
  none

/-- Plain case-sensitive substring containment, the relation the claim
about the text filter asserts. -/
def isSubstr (q s : String) : Bool :=
  s.data.tails.any (fun t => q.data.isPrefixOf t)

/-- The two legal status values. -/
def statusValid (v : String) : Bool :=
  v == "vacant" || v == "occupied"

/-- The claimed store invariant: every stored status is legal. -/
def storeStatusOK (s : Store) : Bool :=
  s.props.all (fun r => statusValid r.status)

/-- A form submission whose status field is absent or legal (what the
rendered `<select>` can produce). -/
def formStatusOK (f : PropertyForm) : Bool :=
  match f.status with
  | none => true
  | some v => statusValid v

/-- Well-formedness of the AUTOINCREMENT counter: every stored row id is
at most the sequence value, so `propsSeq + 1` is fresh. -/
def propIdsBounded (s : Store) : Bool :=
  s.props.all (fun r => decide (r.id ≤ s.propsSeq))

/-- Table-level data preservation: an existing table's rows survive as a
prefix of the resulting table's rows. -/
def tableDataPreserved {α : Type} [BEq α] (before after : Option (List α)) :
    Bool :=
  match before, after with
  | none, _ => true
  | some _, none => false
  | some rows, some rows2 => rows.isPrefixOf rows2

/-! ## Concrete fixtures for counterexamples and witnesses -/

/-- A stored property whose name is capitalized. -/
def villaRec : PropertyRec :=
  { id := 1, name := "Villa", address := none, status := "vacant",
    created_at := "2024-01-01T00:00:00" }

/-- A one-row store holding `villaRec`. -/
def villaStore : Store :=
  { users := [], usersSeq := 0, props := [villaRec], propsSeq := 1 }

/-- A crafted POST whose status field carries a value outside the two
the form's `<select>` offers. -/
def badForm : PropertyForm :=
  { name := "Shed", address := none, status := some "demolished" }

/-- The store with both tables present and empty. -/
def emptyStore : Store :=
  { users := [], usersSeq := 0, props := [], propsSeq := 0 }

/-- The seeded administrator as stored (hash made concrete). -/
def adminUser : UserRec :=
  { id := 1, email := "admin@example.com", password_hash := "hash:admin123",
    role := "admin", created_at := "2024-01-01T00:00:00" }

/-- A sample stored property with an address. -/
def sampleProp1 : PropertyRec :=
  { id := 1, name := "Villa 12", address := some "Palm Jumeirah",
    status := "vacant", created_at := "2024-01-01T10:00:00" }

/-- A sample stored property without an address. -/
def sampleProp2 : PropertyRec :=
  { id := 2, name := "Flat 3", address := none, status := "occupied",
    created_at := "2024-01-02T10:00:00" }

/-- A well-formed sample store. -/
def sampleStore : Store :=
  { users := [adminUser], usersSeq := 1,
    props := [sampleProp1, sampleProp2], propsSeq := 2 }

/-- A well-formed form submission (both fields filled, legal status). -/
def okForm : PropertyForm :=
  { name := "Flat 3B", address := some "Marina Walk", status := some "occupied" }

/-- A database file with neither table created yet. -/
def freshDB : DBFile :=
  { users := none, usersSeq := 0, props := none, propsSeq := 0 }

/-- A concrete hash check standing in for `check_password_hash`. -/
def sampleCheckHash (hash password : String) : Bool :=
  hash == String.append "hash:" password

/-! ## Helper lemmas (shared) -/

/-- Membership is invariant under the descending insertion step. -/
theorem mem_insertDescByCreated (r x : PropertyRec) (l : List PropertyRec) :
    r ∈ insertDescByCreated x l ↔ r = x ∨ r ∈ l := by
  induction l with
  | nil => simp [insertDescByCreated]
  | cons a as ih =>
      rw [insertDescByCreated]
      by_cases hc : a.created_at ≤ x.created_at
      · rw [if_pos hc]; simp
      · rw [if_neg hc]
        simp only [List.mem_cons, ih]
        tauto

/-- Membership is invariant under `ORDER BY created_at DESC`. -/
theorem mem_orderByCreatedDesc (r : PropertyRec) (l : List PropertyRec) :
    r ∈ orderByCreatedDesc l ↔ r ∈ l := by
  induction l with
  | nil => simp [orderByCreatedDesc]
  | cons a as ih => simp [orderByCreatedDesc, mem_insertDescByCreated, ih]

/-- Characterization of the rows the `properties` route returns:
membership in the table, conjoined with each condition exactly when its
parameter is non-empty after stripping. -/
theorem mem_properties (qArg statusArg : String) (s : Store) (r : PropertyRec) :
    r ∈ properties qArg statusArg s ↔
      r ∈ s.props ∧
        (pyStrip qArg = "" ∨ nameOrAddressLike (pyStrip qArg) r = true) ∧
        (pyStrip statusArg = "" ∨ r.status = pyStrip statusArg) := by
  simp only [properties]
  rw [mem_orderByCreatedDesc, List.mem_filter]
  simp only [buildConds]
  by_cases hq : pyStrip qArg = "" <;> by_cases hs : pyStrip statusArg = "" <;>
    simp [hq, hs, evalCond]

/-- Pairs of a list zipped with its image under a map are exactly
`(a, g a)` for members `a`. -/
theorem zip_map_sections {α : Type} (g : α → α) (l : List α)
    (pr : α × α) (h : pr ∈ l.zip (l.map g)) : pr.1 ∈ l ∧ pr.2 = g pr.1 := by
  induction l with
  | nil => simp [List.zip] at h
  | cons a as ih =>
      rw [List.map_cons, List.zip_cons_cons, List.mem_cons] at h
      cases h with
      | inl h =>
          subst h
          exact ⟨List.mem_cons_self a as, rfl⟩
      | inr h =>
          obtain ⟨h1, h2⟩ := ih h
          exact ⟨List.mem_cons_of_mem a h1, h2⟩

/-- A failed login (unknown email, or known email with a rejected
password) leaves the session untouched and re-renders the login page with
the one generic notice. -/
theorem login_eq_of_fails (checkHash : String → String → Bool)
    (e p : String) (sess : Option Nat) (users : List UserRec)
    (h : loginFails checkHash e p users = true) :
    login checkHash e p sess users =
      (sess, Response.page "login" (some ("Invalid credentials", "warning"))) := by
  unfold login
  unfold loginFails at h
  cases hfind : users.find? (fun u => u.email == pyLower (pyStrip e)) with
  | none => simp [hfind]
  | some row =>
      rw [hfind] at h
      simp only [Bool.not_eq_true'] at h
      simp [hfind, h]

/-! ## Claim theorems -/

/-- C1 counterexample: the listing claim's "substring" reading fails on
the code.  SQLite `LIKE` is ASCII-case-insensitive, so the non-empty
query `"villa"` returns the record named `"Villa"` even though `"villa"`
is a substring of neither its name nor its (NULL) address. -/
theorem properties_like_vs_substring_cex :
    villaRec ∈ properties "villa" "" villaStore ∧
      isSubstr "villa" villaRec.name = false ∧ villaRec.address = none := by
  exact ⟨by decide, by decide, rfl⟩

/-- C1 (amended): a record is returned by the properties listing exactly
when it is stored and, for each parameter that is non-empty after
stripping, satisfies that parameter's condition — the `LIKE '%q%'` match
on name or address (ASCII-case-insensitive, `%`/`_` in `q` acting as
wildcards) for the text query, equality for the status; an absent
parameter contributes no condition, so filtering is the AND of the
present conditions only. -/
theorem properties_filter_is_and_of_present_conds (qArg statusArg : String)
    (s : Store) (r : PropertyRec) :
    r ∈ properties qArg statusArg s ↔
      r ∈ s.props ∧
        (pyStrip qArg = "" ∨ nameOrAddressLike (pyStrip qArg) r = true) ∧
        (pyStrip statusArg = "" ∨ r.status = pyStrip statusArg) :=
  mem_properties qArg statusArg s r

/-- C2 counterexample: the insert operation does not enforce the status
invariant — a crafted POST with `status = "demolished"` stores that value
unchanged, so the stored statuses are not all in the two-value set. -/
theorem new_property_stores_unknown_status_cex :
    storeStatusOK (new_property badForm "2024-01-01T00:00:00" emptyStore) = false := by
  decide

/-- C2 (amended): provided every submitted status field is absent or one
of the two values `"vacant"`/`"occupied"` (all the rendered form can
submit), insert and update preserve the invariant that every stored
status is one of the two values. -/
theorem status_invariant_preserved_for_valid_forms (s : Store) (f : PropertyForm)
    (now : String) (pid : Nat)
    (hs : storeStatusOK s = true) (hf : formStatusOK f = true) :
    storeStatusOK (new_property f now s) = true ∧
      storeStatusOK (edit_property pid f s) = true := by
  have hform : statusValid (formStatus f) = true := by
    unfold formStatusOK at hf
    unfold formStatus
    cases h : f.status with
    | none => decide
    | some v => rw [h] at hf; simpa using hf
  constructor
  · unfold storeStatusOK at hs ⊢
    unfold new_property
    simp only [List.all_append]
    simp [hs, hform]
  · unfold edit_property
    cases hfind : s.props.find? (fun r => r.id == pid) with
    | none => exact hs
    | some w =>
        unfold storeStatusOK at hs ⊢
        simp only [List.all_eq_true] at hs ⊢
        intro x hx
        rw [List.mem_map] at hx
        obtain ⟨r, hr, hrx⟩ := hx
        subst hrx
        by_cases hid : (r.id == pid) = true
        · simp [hid, hform]
        · simp only [Bool.not_eq_true] at hid
          simp only [hid, if_neg, Bool.false_eq_true]
          exact hs r hr

/-- C2 witness: a concrete well-formed store and form for which the
amended preservation theorem applies. -/
theorem status_invariant_preserved_witness :
    storeStatusOK (new_property okForm "2024-02-02T00:00:00" sampleStore) = true ∧
      storeStatusOK (edit_property 1 okForm sampleStore) = true :=
  status_invariant_preserved_for_valid_forms sampleStore okForm
    "2024-02-02T00:00:00" 1 (by decide) (by decide)

/-- C9: the logout operation (modelled from the spec; the route is absent
from `src/`) clears the session-to-user association unconditionally —
after logout no session state resolves to an identity. -/
theorem logout_clears_session (sess : Option Nat) (users : List UserRec) :
    current_user (logout sess) users = none :=
  rfl

/-- C3: starting from a store with zero users, initialization creates
exactly one user, whose email is the fixed seed email; starting from a
store that already has at least one user, initialization adds zero users
(the user rows are returned unchanged). -/
theorem init_db_seeds_exactly_one_admin (hash now : String) (d : DBFile) :
    (usersRowsOf d = [] →
        ((init_db hash now d).users.getD []).map UserRec.email = [adminEmail]) ∧
      (usersRowsOf d ≠ [] →
        (init_db hash now d).users = some (usersRowsOf d)) := by
  constructor
  · intro h
    unfold usersRowsOf at h
    simp [init_db, createTableIfAbsent, h, seedAdmin]
  · intro h
    unfold usersRowsOf at h ⊢
    cases hd : d.users.getD [] with
    | nil => exact absurd hd h
    | cons a as => simp [init_db, createTableIfAbsent, hd]

/-- C3 witness: on the fresh database file the seeding branch applies and
produces exactly the one admin row. -/
theorem init_db_seeds_exactly_one_admin_witness :
    usersRowsOf freshDB = [] ∧
      ((init_db "hash:admin123" "2024-01-01T00:00:00" freshDB).users.getD []).map
          UserRec.email = [adminEmail] :=
  ⟨rfl, (init_db_seeds_exactly_one_admin "hash:admin123" "2024-01-01T00:00:00"
    freshDB).1 rfl⟩

/-- C4: initialization is idempotent and non-destructive — the store
after a second run equals the store after the first, and each
pre-existing table's rows survive the first run as a prefix of that
table's rows (so nothing is destroyed, altered, or duplicated). -/
theorem init_db_idempotent_and_preserves_data (h1 t1 h2 t2 : String) (d : DBFile) :
    init_db h2 t2 (init_db h1 t1 d) = init_db h1 t1 d ∧
      tableDataPreserved d.users (init_db h1 t1 d).users = true ∧
      tableDataPreserved d.props (init_db h1 t1 d).props = true := by
  obtain ⟨users, us, props, ps⟩ := d
  refine ⟨?_, ?_, ?_⟩
  · cases users with
    | none => simp [init_db, createTableIfAbsent]
    | some rows =>
        cases rows with
        | nil => simp [init_db, createTableIfAbsent]
        | cons a as => simp [init_db, createTableIfAbsent]
  · cases users with
    | none => simp [init_db, createTableIfAbsent, tableDataPreserved]
    | some rows =>
        cases rows with
        | nil => simp [init_db, createTableIfAbsent, tableDataPreserved, List.isPrefixOf]
        | cons a as =>
            simp [init_db, createTableIfAbsent, tableDataPreserved]
  · cases props with
    | none =>
        cases users with
        | none => simp [init_db, createTableIfAbsent, tableDataPreserved]
        | some rows =>
            cases rows with
            | nil => simp [init_db, createTableIfAbsent, tableDataPreserved]
            | cons a as => simp [init_db, createTableIfAbsent, tableDataPreserved]
    | some prows =>
        cases users with
        | none => simp [init_db, createTableIfAbsent, tableDataPreserved]
        | some rows =>
            cases rows with
            | nil => simp [init_db, createTableIfAbsent, tableDataPreserved]
            | cons a as => simp [init_db, createTableIfAbsent, tableDataPreserved]

/-- C5: a getById for the id handed out by the insert, immediately after
the insert, returns a record whose name and address equal the submitted
values and whose status equals the submitted status, `"vacant"` when the
status field was omitted.  The store is well-formed: no stored id exceeds
the AUTOINCREMENT counter. -/
theorem new_property_getById_returns_submitted (s : Store) (f : PropertyForm)
    (now : String) (hs : propIdsBounded s = true) :
    ∃ r, getPropertyById (new_property f now s)
          (lastInsertId (new_property f now s)) = some r ∧
        r.name = f.name ∧ r.address = f.address ∧
        (∀ v, f.status = some v → r.status = v) ∧
        (f.status = none → r.status = "vacant") := by
  have hnone : s.props.find? (fun r => r.id == s.propsSeq + 1) = none := by
    rw [List.find?_eq_none]
    intro x hx
    unfold propIdsBounded at hs
    rw [List.all_eq_true] at hs
    have hb := hs x hx
    simp only [decide_eq_true_eq] at hb
    simp only [beq_iff_eq]
    omega
  refine ⟨{ id := s.propsSeq + 1, name := f.name, address := f.address,
            status := formStatus f, created_at := now }, ?_, rfl, rfl, ?_, ?_⟩
  · simp only [getPropertyById, new_property, lastInsertId]
    rw [List.find?_append, hnone]
    simp [List.find?]
  · intro v hv
    simp [formStatus, hv]
  · intro h0
    simp [formStatus, h0]

/-- C5 witness: the sample store is well-formed and the insert/getById
round trip returns the submitted field values there. -/
theorem new_property_getById_witness :
    propIdsBounded sampleStore = true ∧
      ∃ r, getPropertyById (new_property okForm "2024-02-02T00:00:00" sampleStore)
            (lastInsertId (new_property okForm "2024-02-02T00:00:00" sampleStore)) =
              some r ∧
          r.name = okForm.name ∧ r.address = okForm.address ∧
          (∀ v, okForm.status = some v → r.status = v) ∧
          (okForm.status = none → r.status = "vacant") :=
  ⟨by decide, new_property_getById_returns_submitted sampleStore okForm
    "2024-02-02T00:00:00" (by decide)⟩

/-- C6: after deleting an id, a getById for that id returns absent, and
no record with that id appears in a subsequent unfiltered listing. -/
theorem delete_property_then_absent (s : Store) (pid : Nat) :
    getPropertyById (delete_property pid s) pid = none ∧
      ∀ r ∈ properties "" "" (delete_property pid s), r.id ≠ pid := by
  constructor
  · simp only [getPropertyById, delete_property]
    rw [List.find?_eq_none]
    intro x hx
    rw [List.mem_filter] at hx
    simpa using hx.2
  · intro r hr
    rw [mem_properties] at hr
    have hmem := hr.1
    simp only [delete_property] at hmem
    rw [List.mem_filter] at hmem
    simpa using hmem.2

/-- C6 witness: deleting id 1 from the sample store makes it absent from
getById and from the unfiltered listing. -/
theorem delete_property_then_absent_witness :
    getPropertyById (delete_property 1 sampleStore) 1 = none ∧
      ∀ r ∈ properties "" "" (delete_property 1 sampleStore), r.id ≠ 1 :=
  delete_property_then_absent sampleStore 1

/-- C7: with no resolved identity, a protected operation short-circuits:
the decorator returns the redirect-to-login outcome with the deferred
warning notice and the untouched store; the result does not depend on the
protected body `f`, which is therefore never executed. -/
theorem login_required_short_circuits (f : Store → Store × Response)
    (sess : Option Nat) (s : Store)
    (h : current_user sess s.users = none) :
    login_required f sess s =
      (s, Response.redirect "/login" (some ("Please log in first.", "warning"))) := by
  simp [login_required, h]

/-- C7 witness: with an empty session on the empty store, a concrete
protected body is skipped and the redirect is returned. -/
theorem login_required_short_circuits_witness :
    current_user none emptyStore.users = none ∧
      login_required (fun st => (st, Response.page "dashboard" none)) none emptyStore =
        (emptyStore, Response.redirect "/login" (some ("Please log in first.", "warning"))) :=
  ⟨rfl, login_required_short_circuits (fun st => (st, Response.page "dashboard" none))
    none emptyStore rfl⟩

/-- C8: two failed login attempts — one with an unknown email, one with a
known email but rejected password — are observationally identical: both
leave the session unestablished and produce the same rendered login page
with the same generic "Invalid credentials" notice. -/
theorem login_failure_observationally_identical
    (checkHash : String → String → Bool) (e1 p1 e2 p2 : String)
    (sess : Option Nat) (users : List UserRec)
    (h1 : loginFails checkHash e1 p1 users = true)
    (h2 : loginFails checkHash e2 p2 users = true) :
    login checkHash e1 p1 sess users = login checkHash e2 p2 sess users ∧
      login checkHash e1 p1 sess users =
        (sess, Response.page "login" (some ("Invalid credentials", "warning"))) := by
  have r1 := login_eq_of_fails checkHash e1 p1 sess users h1
  have r2 := login_eq_of_fails checkHash e2 p2 sess users h2
  exact ⟨r1.trans r2.symm, r1⟩

/-- C8 witness: an unknown-email attempt and a wrong-password attempt
against the seeded admin produce identical observable outcomes. -/
theorem login_failure_observationally_identical_witness :
    loginFails sampleCheckHash "nobody@example.com" "admin123" [adminUser] = true ∧
      loginFails sampleCheckHash "admin@example.com" "wrongpass" [adminUser] = true ∧
      login sampleCheckHash "nobody@example.com" "admin123" none [adminUser] =
        login sampleCheckHash "admin@example.com" "wrongpass" none [adminUser] :=
  ⟨by decide, by decide,
    (login_failure_observationally_identical sampleCheckHash "nobody@example.com"
      "admin123" "admin@example.com" "wrongpass" none [adminUser]
      (by decide) (by decide)).1⟩

/-- C10: the update operation modifies only the name, address and status
fields of rows with the targeted id: row count, the users table and the
sequence counter are unchanged, every row keeps its id and creation
timestamp, rows with a different id are untouched, and the targeted row's
mutable fields take the submitted values. -/
theorem edit_property_frame_targets_only_fields (s : Store) (pid : Nat)
    (f : PropertyForm) :
    (edit_property pid f s).props.length = s.props.length ∧
      (edit_property pid f s).users = s.users ∧
      (edit_property pid f s).propsSeq = s.propsSeq ∧
      ∀ pr ∈ s.props.zip (edit_property pid f s).props,
        pr.2.id = pr.1.id ∧ pr.2.created_at = pr.1.created_at ∧
          (pr.1.id ≠ pid → pr.2 = pr.1) ∧
          (pr.1.id = pid → pr.2.name = f.name ∧ pr.2.address = f.address ∧
            (∀ v, f.status = some v → pr.2.status = v) ∧
            (f.status = none → pr.2.status = "vacant")) := by
  cases hfind : s.props.find? (fun r => r.id == pid) with
  | none =>
      have hsame : edit_property pid f s = s := by
        unfold edit_property
        rw [hfind]
      rw [hsame]
      refine ⟨rfl, rfl, rfl, ?_⟩
      intro pr hpr
      have h2 : pr.1 ∈ s.props ∧ pr.2 = id pr.1 := by
        apply zip_map_sections
        simpa using hpr
      have hne : pr.1.id ≠ pid := by
        rw [List.find?_eq_none] at hfind
        have := hfind pr.1 h2.1
        simpa using this
      have hid2 : pr.2 = pr.1 := h2.2
      exact ⟨by rw [hid2], by rw [hid2], fun _ => hid2, fun he => absurd he hne⟩
  | some w =>
      have hupd : edit_property pid f s =
          { s with props := s.props.map (fun r =>
              if r.id == pid then
                { r with name := f.name, address := f.address, status := formStatus f }
              else r) } := by
        unfold edit_property
        rw [hfind]
      rw [hupd]
      refine ⟨by simp, rfl, rfl, ?_⟩
      intro pr hpr
      obtain ⟨hmem, heq⟩ := zip_map_sections _ _ _ hpr
      by_cases hid : pr.1.id = pid
      · have hb : (pr.1.id == pid) = true := by simpa using hid
        rw [heq, if_pos hb]
        refine ⟨rfl, rfl, fun hne => absurd hid hne, fun _ => ⟨rfl, rfl, ?_, ?_⟩⟩
        · intro v hv
          simp [formStatus, hv]
        · intro h0
          simp [formStatus, h0]
      · have hb : ¬((pr.1.id == pid) = true) := by simpa using hid
        rw [heq, if_neg hb]
        exact ⟨rfl, rfl, fun _ => rfl, fun he => absurd he hid⟩

/-- C10 witness: updating id 2 of the sample store exhibits the frame
property concretely. -/
theorem edit_property_frame_witness :
    (edit_property 2 okForm sampleStore).props.length = sampleStore.props.length ∧
      (edit_property 2 okForm sampleStore).users = sampleStore.users ∧
      (edit_property 2 okForm sampleStore).propsSeq = sampleStore.propsSeq ∧
      ∀ pr ∈ sampleStore.props.zip (edit_property 2 okForm sampleStore).props,
        pr.2.id = pr.1.id ∧ pr.2.created_at = pr.1.created_at ∧
          (pr.1.id ≠ 2 → pr.2 = pr.1) ∧
          (pr.1.id = 2 → pr.2.name = okForm.name ∧ pr.2.address = okForm.address ∧
            (∀ v, okForm.status = some v → pr.2.status = v) ∧
            (okForm.status = none → pr.2.status = "vacant")) :=
  edit_property_frame_targets_only_fields sampleStore 2 okForm
